import Mathlib

/-!
Shallow embedding of `src/main/main.c` (ultrasonic distance firmware for an
HC-SR04-style sensor): the measurement state machine, the echo-capture ISR
with its one-shot timeout alarm, the command intake, the wall clock and the
supervisor loop, together with theorems settling the specification claims.

Modelling conventions:
- C `double`/`float` arithmetic is idealised as exact rational arithmetic
  (`ℚ`); the `printf "%.0f"` formatting is idealised as rounding to the
  nearest integer (`round`).
- Monotonic microsecond timestamps (`absolute_time_t`) are `Nat`.
- The hardware alarm pool is modelled by a ghost field `pending_alarms`
  (the ids of currently armed alarms); `add_alarm_in_us` appends a fresh id,
  `cancel_alarm` removes one, and an alarm firing removes its own id.
- C integer conversions are explicit: `to_int32` is the wrap-around
  conversion to `int`, `int_to_u64` the two's-complement conversion of a C
  `int` value to `uint64_t`.
-/

namespace Pra3

/-- `TRIGGER_PULSE_US` from main.c line 19. -/
def TRIGGER_PULSE_US : Nat := 10

/-- `ECHO_TIMEOUT_US` from main.c line 20. -/
def ECHO_TIMEOUT_US : Nat := 30000

/-- Capacity of `cmd_buffer` (`char cmd_buffer[20]`, main.c line 142). -/
def CMD_BUFFER_CAP : Nat := 20

/-- Wrap-around conversion of a mathematical integer to a 32-bit signed
C `int` value, used for `int echo_duration_us = absolute_time_diff_us(...)`. -/
def to_int32 (x : Int) : Int := (x + 2 ^ 31) % 2 ^ 32 - 2 ^ 31

/-- Conversion of a C `int` value to `uint64_t` (two's complement), applied
implicitly at the call `calcula_distancia_cm(echo_duration_us)`. -/
def int_to_u64 (x : Int) : Nat := (x % 2 ^ 64).toNat

/-- `calcula_distancia_cm` (main.c lines 39-43): `(duracao_us * 0.0343) / 2.0`,
with the double arithmetic idealised as exact rational arithmetic
(`0.0343 = 343/10000`). -/
def calcula_distancia_cm (duracao_us : Nat) : ℚ :=
  ((duracao_us : ℚ) * (343 / 10000)) / 2

/-- The wall-clock triple held in `current_time` (only the `hour`, `min`,
`sec` fields take part in the claims; the date fields are constant). -/
structure Datetime where
  hour : Int
  min : Int
  sec : Int
deriving DecidableEq

/-- The compile-time initial value of `current_time` (main.c lines 29-37):
2025-03-16 21:30:00. -/
def initial_time : Datetime := ⟨21, 30, 0⟩

/-- `update_rtc_time` (main.c lines 99-113): increment seconds, propagate
carries into minutes and hours, wrap hours at 24. -/
def update_rtc_time (t : Datetime) : Datetime :=
  let sec := t.sec + 1
  if sec ≥ 60 then
    let min := t.min + 1
    if min ≥ 60 then
      let hour := t.hour + 1
      if hour ≥ 24 then ⟨0, 0, 0⟩ else ⟨hour, 0, 0⟩
    else ⟨t.hour, min, 0⟩
  else ⟨t.hour, t.min, sec⟩

/-- One console output line. `dist h m s cm` stands for
`"HH:MM:SS - <cm> cm"`, `falha h m s` for `"HH:MM:SS - Falha"`,
`started` for `"Sistema iniciado. Medindo distancia."`, `paused` for
`"Sistema pausado."`, `unknown c` and `help` for the two unknown-command
diagnostics. -/
inductive Line where
  | started : Line
  | paused : Line
  | unknown : String → Line
  | help : Line
  | dist : Int → Int → Int → Int → Line
  | falha : Int → Int → Int → Line
deriving DecidableEq

/-- Whether a line is a measurement line (distance or `Falha`). -/
def is_meas_line : Line → Bool
  | Line.dist _ _ _ _ => true
  | Line.falha _ _ _ => true
  | _ => false

/-- Whether a list of lines contains no measurement line. -/
def no_meas_lines (ls : List Line) : Bool :=
  ls.all (fun l => !(is_meas_line l))

/-- The ISR/alarm shared state (main.c lines 23-27). `pending_alarms` is a
ghost field modelling the ids of the hardware alarms currently armed; it is
not a program variable but records the effect of `add_alarm_in_us`,
`cancel_alarm` and alarm expiry on the hardware alarm pool. -/
structure EchoState where
  echo_recebido : Bool
  echo_timeout : Bool
  echo_start_time : Nat
  echo_end_time : Nat
  echo_timeout_alarm : Int
  pending_alarms : List Nat
deriving DecidableEq

/-- The reset state of the ISR variables at boot. -/
def initial_echo : EchoState := ⟨false, false, 0, 0, -1, []⟩

/-- Effect of `cancel_alarm id` on the set of armed hardware alarms. -/
def cancel_alarm (id : Nat) (pend : List Nat) : List Nat :=
  pend.filter (fun a => a != id)

/-- Rising-edge branch of `echo_isr` (main.c lines 54-62): record the rise
timestamp, clear `echo_recebido`, cancel a previously armed timeout alarm if
any, and arm a fresh one (`newId` is the id returned by `add_alarm_in_us`). -/
def echo_isr_rise (t : Nat) (newId : Nat) (st : EchoState) : EchoState :=
  let st1 := { st with echo_start_time := t, echo_recebido := false }
  let pend :=
    if st1.echo_timeout_alarm ≥ 0 then
      cancel_alarm st1.echo_timeout_alarm.toNat st1.pending_alarms
    else st1.pending_alarms
  { st1 with echo_timeout_alarm := (newId : Int), pending_alarms := pend ++ [newId] }

/-- Falling-edge branch of `echo_isr` (main.c lines 64-72): record the fall
timestamp, set `echo_recebido`, clear `echo_timeout`, and cancel the armed
timeout alarm if any. -/
def echo_isr_fall (t : Nat) (st : EchoState) : EchoState :=
  let st1 := { st with echo_end_time := t, echo_recebido := true, echo_timeout := false }
  if st1.echo_timeout_alarm ≥ 0 then
    { st1 with
        pending_alarms := cancel_alarm st1.echo_timeout_alarm.toNat st1.pending_alarms,
        echo_timeout_alarm := -1 }
  else st1

/-- `echo_timeout_callback` (main.c lines 45-50), firing for the armed alarm
with id `fired`: set `echo_timeout`, clear `echo_recebido`, clear the handle.
The fired alarm leaves the hardware pool. -/
def echo_timeout_callback (fired : Nat) (st : EchoState) : EchoState :=
  { st with
      echo_timeout := true
      echo_recebido := false
      echo_timeout_alarm := -1
      pending_alarms := cancel_alarm fired st.pending_alarms }

/-- `disparar_medicao` (main.c lines 77-84): clear both result flags, then
pulse the trigger pin (the pulse itself is hardware-only and has no effect on
this state). Note it does not touch `echo_timeout_alarm` or the alarm pool. -/
def disparar_medicao (st : EchoState) : EchoState :=
  { st with echo_recebido := false, echo_timeout := false }

/-- The events that mutate the ISR/alarm shared state. -/
inductive EchoEvent where
  | rise : Nat → Nat → EchoEvent
  | fall : Nat → EchoEvent
  | timeout_fire : Nat → EchoEvent
  | disparar : EchoEvent
deriving DecidableEq

/-- Step function over the ISR/alarm shared state. -/
def echo_step (e : EchoEvent) (st : EchoState) : EchoState :=
  match e with
  | EchoEvent.rise t id => echo_isr_rise t id st
  | EchoEvent.fall t => echo_isr_fall t st
  | EchoEvent.timeout_fire f => echo_timeout_callback f st
  | EchoEvent.disparar => disparar_medicao st

/-- Hardware-side admissibility of an event: an alarm can only fire while it
is armed, and `add_alarm_in_us` returns an id distinct from every armed one. -/
def EchoEvent.valid (e : EchoEvent) (st : EchoState) : Bool :=
  match e with
  | EchoEvent.rise _ id => !(st.pending_alarms.contains id)
  | EchoEvent.timeout_fire f => st.pending_alarms.contains f
  | _ => true

/-- The alarm-handle invariant: `echo_timeout_alarm` is nonnegative exactly
when one alarm is armed, and then it names that alarm; in particular at most
one timeout alarm is ever outstanding. -/
def alarm_inv (st : EchoState) : Prop :=
  (st.echo_timeout_alarm ≥ 0 → st.pending_alarms = [st.echo_timeout_alarm.toNat]) ∧
  (st.echo_timeout_alarm < 0 → st.pending_alarms = [])

/-- `verifica_comando` (main.c lines 86-97), as a function from the command
string and the current `sistema_ativo` flag to the new flag and the lines
printed. -/
def verifica_comando (cmd : String) (sistema_ativo : Bool) : Bool × List Line :=
  if cmd = "start" ∨ cmd = "START" then
    (true, [Line.started])
  else if cmd = "stop" ∨ cmd = "STOP" then
    (false, [Line.paused])
  else
    (sistema_ativo, [Line.unknown cmd, Line.help])

/-- The command line buffer state (`cmd_buffer`, `cmd_index`,
main.c lines 142-143). The buffer is a list of fixed length 20. -/
structure CmdState where
  cmd_buffer : List Char
  cmd_index : Nat
deriving DecidableEq

/-- `char cmd_buffer[20] = {0}; int cmd_index = 0;`. -/
def initial_cmd : CmdState := ⟨List.replicate 20 (Char.ofNat 0), 0⟩

/-- The character-consumption step of the supervisor loop
(main.c lines 155-165): on `\r`/`\n` with a nonempty buffer, write the
terminating NUL, dispatch the buffered string and reset the index; otherwise
append the character when `cmd_index < sizeof(cmd_buffer) - 1`, else drop it.
Returns the new state, the dispatched command (if any) and the list of buffer
indices written during the step. -/
def process_char (c : Char) (st : CmdState) : CmdState × Option String × List Nat :=
  if c = Char.ofNat 13 ∨ c = Char.ofNat 10 then
    if st.cmd_index > 0 then
      let buf := st.cmd_buffer.set st.cmd_index (Char.ofNat 0)
      (⟨buf, 0⟩, some (String.mk (buf.take st.cmd_index)), [st.cmd_index])
    else (st, none, [])
  else if st.cmd_index < CMD_BUFFER_CAP - 1 then
    (⟨st.cmd_buffer.set st.cmd_index c, st.cmd_index + 1⟩, none, [st.cmd_index])
  else (st, none, [])

/-- Feed a list of characters through `process_char`, keeping only the state. -/
def feed_chars (cs : List Char) (st : CmdState) : CmdState :=
  cs.foldl (fun s c => (process_char c s).1) st

/-- `print_medicao` (main.c lines 115-123): print `Falha` when
`echo_timeout` is set, otherwise the distance rounded by `%.0f`. -/
def print_medicao (echo_timeout : Bool) (t : Datetime) (distancia : ℚ) : Line :=
  if echo_timeout then Line.falha t.hour t.min t.sec
  else Line.dist t.hour t.min t.sec (round distancia)

/-- The reporting step after the 50 ms wait (main.c lines 173-179): if
`echo_recebido`, compute the duration as a C `int` and print the distance;
else if `echo_timeout`, print via `print_medicao` (which yields `Falha`);
else print nothing. -/
def medicao_report (e : EchoState) (t : Datetime) : List Line :=
  if e.echo_recebido then
    let dur := to_int32 ((e.echo_end_time : Int) - (e.echo_start_time : Int))
    [print_medicao e.echo_timeout t (calcula_distancia_cm (int_to_u64 dur))]
  else if e.echo_timeout then
    [print_medicao e.echo_timeout t 0]
  else []

/-- The measurement branch of one supervisor iteration (main.c lines
167-182): when `sistema_ativo` and one second has elapsed, fire the trigger
(`disparar_medicao`), let the ISR/alarm events of the 50 ms wait act on the
shared state, then report. Returns the new echo state, the lines printed and
whether the trigger was fired. -/
def medicao_phase (ativo : Bool) (meas_due : Bool) (wait_events : List EchoEvent)
    (e : EchoState) (t : Datetime) : EchoState × List Line × Bool :=
  if ativo && meas_due then
    let e1 := disparar_medicao e
    let e2 := wait_events.foldl (fun s ev => echo_step ev s) e1
    (e2, medicao_report e2 t, true)
  else (e, [], false)

/-- The console-intake part of one supervisor iteration (main.c lines
148, 155-165): consume at most one character; on dispatch run
`verifica_comando`. Returns the new buffer state, the new `sistema_ativo`
flag and the lines printed. -/
def intake_phase (input : Option Char) (cmd : CmdState) (ativo : Bool) :
    CmdState × Bool × List Line :=
  match input with
  | none => (cmd, ativo, [])
  | some c =>
      let r := process_char c cmd
      match r.2.1 with
      | none => (r.1, ativo, [])
      | some s =>
          let v := verifica_comando s ativo
          (r.1, v.1, v.2)

/-- Full supervisor state: activation flag, command buffer, wall clock and
ISR shared state. -/
structure SysState where
  sistema_ativo : Bool
  cmd : CmdState
  current_time : Datetime
  echo : EchoState
deriving DecidableEq

/-- Supervisor state right after boot. -/
def initial_sys : SysState := ⟨false, initial_cmd, initial_time, initial_echo⟩

/-- One iteration of the supervisor `while (true)` loop (main.c lines
147-184): poll the console (`input`), tick the wall clock when a second has
elapsed (`rtc_due`), feed command intake, then run the measurement branch
(`meas_due` is the 1 Hz pacing test; `wait_events` are the ISR/alarm events
delivered during the 50 ms wait). Returns the new state, the lines printed
and whether the trigger was fired. -/
def loop_iter (input : Option Char) (rtc_due : Bool) (meas_due : Bool)
    (wait_events : List EchoEvent) (st : SysState) : SysState × List Line × Bool :=
  let t1 := if rtc_due then update_rtc_time st.current_time else st.current_time
  let i := intake_phase input st.cmd st.sistema_ativo
  let m := medicao_phase i.2.1 meas_due wait_events st.echo t1
  (⟨i.2.1, i.1, t1, m.1⟩, i.2.2 ++ m.2.1, m.2.2)

/-- The distance law exactly as the spec words it: the printed integer equals
`round(d × 0.0343 / 2)` for an echo duration of `d` µs. -/
def spec_distance_rounded (d : Nat) : Int :=
  round ((d : ℚ) * (343 / 10000) / 2)

end Pra3

namespace Pra3

/-! Helper lemmas shared by the claim theorems. -/

/-- Cancelling the only armed alarm empties the pool. -/
theorem cancel_alarm_self (x : Nat) : cancel_alarm x [x] = [] := by
  simp [cancel_alarm]

/-- A state satisfying the alarm-handle invariant has at most one armed
alarm. -/
theorem alarm_inv_length (st : EchoState) (h : alarm_inv st) :
    st.pending_alarms.length ≤ 1 := by
  rcases h with ⟨h1, h2⟩
  rcases lt_or_ge st.echo_timeout_alarm 0 with hl | hg
  · rw [h2 hl]; simp
  · rw [h1 hg]; simp

/-- The measurement branch does nothing while `sistema_ativo` is false. -/
theorem medicao_phase_inactive (meas_due : Bool) (w : List EchoEvent)
    (e : EchoState) (t : Datetime) :
    medicao_phase false meas_due w e t = (e, [], false) := by
  simp [medicao_phase]

/-- Command dispatch never prints a measurement line. -/
theorem verifica_no_meas (s : String) (b : Bool) :
    no_meas_lines (verifica_comando s b).2 = true := by
  unfold verifica_comando
  split_ifs <;> simp [no_meas_lines, is_meas_line]

/-- Console intake never prints a measurement line. -/
theorem intake_no_meas (input : Option Char) (cmd : CmdState) (b : Bool) :
    no_meas_lines (intake_phase input cmd b).2.2 = true := by
  cases input with
  | none => rfl
  | some c =>
      simp only [intake_phase]
      split
      · rfl
      · exact verifica_no_meas _ _

end Pra3

namespace Pra3

/-- C9: dispatching `start` while the activation flag is already true emits
the confirmation line and leaves the flag true, and dispatching `stop` while
the flag is already false emits the confirmation line and leaves the flag
false — `verifica_comando` is idempotent on the state for both verbs. -/
theorem C9_command_idempotent :
    verifica_comando "start" true = (true, [Line.started]) ∧
    verifica_comando "stop" false = (false, [Line.paused]) := by decide

/-- C4 counterexample: the mixed-case command `Start` is not recognized —
the activation flag stays false and the unknown-command diagnostics are
printed instead of the start confirmation. -/
theorem C4_counterexample :
    (verifica_comando "Start" false).1 = false ∧
    (verifica_comando "Start" false).2 = [Line.unknown "Start", Line.help] := by decide

/-- C4 (amended): command dispatch recognizes exactly the all-lowercase and
all-uppercase spellings `start`/`START` and `stop`/`STOP`; every other
string — in particular any other case mixture such as `Start` or `sTaRt` —
is dispatched as an unknown command and leaves the activation flag
unchanged. -/
theorem C4_amended_thm (cmd : String) (b : Bool)
    (hne : cmd ≠ "start" ∧ cmd ≠ "START" ∧ cmd ≠ "stop" ∧ cmd ≠ "STOP") :
    verifica_comando "start" b = (true, [Line.started]) ∧
    verifica_comando "START" b = (true, [Line.started]) ∧
    verifica_comando "stop" b = (false, [Line.paused]) ∧
    verifica_comando "STOP" b = (false, [Line.paused]) ∧
    verifica_comando cmd b = (b, [Line.unknown cmd, Line.help]) := by
  obtain ⟨h1, h2, h3, h4⟩ := hne
  refine ⟨?_, ?_, ?_, ?_, ?_⟩
  · unfold verifica_comando
    rw [if_pos (Or.inl rfl)]
  · unfold verifica_comando
    rw [if_pos (Or.inr rfl)]
  · unfold verifica_comando
    rw [if_neg (by decide), if_pos (Or.inl rfl)]
  · unfold verifica_comando
    rw [if_neg (by decide), if_pos (Or.inr rfl)]
  · unfold verifica_comando
    rw [if_neg (fun h => h.elim h1 h2), if_neg (fun h => h.elim h3 h4)]

/-- C4 amended witness: the mixed-case `sTaRt` differs from all four
recognized spellings and is dispatched as an unknown command, leaving the
flag (here true) unchanged. -/
theorem C4_amended_witness :
    verifica_comando "sTaRt" true = (true, [Line.unknown "sTaRt", Line.help]) :=
  (C4_amended_thm "sTaRt" true (by decide)).2.2.2.2

/-- C10: the flags `echo_recebido` and `echo_timeout` are never
simultaneously true — they are both false at boot, and every writer (the
rising- and falling-edge ISR branches, the timeout alarm callback and
`disparar_medicao`) leaves at least one of them false. -/
theorem C10_flags_mutually_exclusive :
    (¬(initial_echo.echo_recebido = true ∧ initial_echo.echo_timeout = true)) ∧
    ∀ (e : EchoEvent) (st : EchoState),
      ¬((echo_step e st).echo_recebido = true ∧ (echo_step e st).echo_timeout = true) := by
  refine ⟨by decide, ?_⟩
  intro e st
  cases e <;>
    simp [echo_step, echo_isr_rise, echo_isr_fall, echo_timeout_callback, disparar_medicao] <;>
    split_ifs <;> simp

/-- C1 counterexample: in an active measurement cycle where no echo edge
arrives during the 50 ms wait (result still pending: both flags false), the
trigger is fired but no output line at all is emitted — refuting the claim
that such a cycle is reported as `Falha`. -/
theorem C1_counterexample :
    (medicao_phase true true [] initial_echo initial_time).2.2 = true ∧
    (medicao_phase true true [] initial_echo initial_time).2.1 = [] := by decide

/-- C1 (amended): after `fire()` and the 50 ms wait, the supervisor emits a
distance line when `echo_recebido` is set, a `Falha` line when only
`echo_timeout` is set, and no line at all when the result is still pending
(neither flag set) — the cycle is then skipped silently. -/
theorem C1_amended_thm (e : EchoState) (t : Datetime)
    (hx : ¬(e.echo_recebido = true ∧ e.echo_timeout = true)) :
    (e.echo_recebido = true →
      medicao_report e t = [Line.dist t.hour t.min t.sec
        (round (calcula_distancia_cm (int_to_u64 (to_int32
          ((e.echo_end_time : Int) - (e.echo_start_time : Int))))))]) ∧
    (e.echo_recebido = false → e.echo_timeout = true →
      medicao_report e t = [Line.falha t.hour t.min t.sec]) ∧
    (e.echo_recebido = false → e.echo_timeout = false →
      medicao_report e t = []) := by
  refine ⟨fun hr => ?_, fun hr ht => ?_, fun hr ht => ?_⟩
  · have ht : e.echo_timeout = false := by
      cases h : e.echo_timeout
      · rfl
      · exact absurd ⟨hr, h⟩ hx
    simp [medicao_report, print_medicao, hr, ht]
  · simp [medicao_report, print_medicao, hr, ht]
  · simp [medicao_report, print_medicao, hr, ht]

/-- C1 amended witness: a timed-out cycle prints exactly one `Falha` line
stamped with the wall clock. -/
theorem C1_amended_witness :
    medicao_report ⟨false, true, 0, 0, -1, []⟩ initial_time = [Line.falha 21 30 0] := by
  exact (C1_amended_thm ⟨false, true, 0, 0, -1, []⟩ initial_time (by decide)).2.1 rfl rfl

/-- C3 counterexample: a zero-length echo (rise and fall at the same
microsecond, `echo_recebido` set) is reported as the distance line `0 cm`,
not as a `Falha` line — refuting the claim that non-positive durations are
treated as failures. -/
theorem C3_counterexample :
    medicao_report ⟨true, false, 100, 100, -1, []⟩ ⟨21, 30, 0⟩ = [Line.dist 21 30 0 0] := by
  simp [medicao_report, print_medicao, to_int32, int_to_u64, calcula_distancia_cm]

/-- C3 (amended): the reporting path never inspects the sign of the
duration — whenever `echo_recebido` is set (and `echo_timeout` is not), the
distance computation is applied to the two's-complement `uint64_t` image of
the C `int` duration and a distance line is printed, even when that duration
is zero or negative. -/
theorem C3_amended_thm (e : EchoState) (t : Datetime)
    (hr : e.echo_recebido = true) (ht : e.echo_timeout = false)
    (hd : to_int32 ((e.echo_end_time : Int) - (e.echo_start_time : Int)) ≤ 0) :
    medicao_report e t = [Line.dist t.hour t.min t.sec
      (round (calcula_distancia_cm (int_to_u64 (to_int32
        ((e.echo_end_time : Int) - (e.echo_start_time : Int))))))] := by
  simp [medicao_report, print_medicao, hr, ht]

/-- C3 amended witness: the zero-duration echo state satisfies the
hypotheses and yields the distance line. -/
theorem C3_amended_witness :
    medicao_report ⟨true, false, 100, 100, -1, []⟩ ⟨21, 30, 0⟩
      = [Line.dist 21 30 0 (round (calcula_distancia_cm (int_to_u64 (to_int32
          ((100 : Int) - (100 : Int))))))] := by
  exact C3_amended_thm ⟨true, false, 100, 100, -1, []⟩ ⟨21, 30, 0⟩ rfl rfl (by decide)

end Pra3

namespace Pra3

/-- C2 counterexample: with an alarm armed by a rising edge (a reachable
state), `disparar_medicao` leaves the alarm armed and the handle set — it
does not cancel an armed timeout alarm before triggering. -/
theorem C2_counterexample :
    (disparar_medicao (echo_isr_rise 0 5 initial_echo)).pending_alarms = [5] ∧
    (disparar_medicao (echo_isr_rise 0 5 initial_echo)).echo_timeout_alarm = 5 := by decide

/-- C5: for every successful measurement of positive echo duration `d` µs
(below the `int` range bound), the reported line carries exactly the integer
`round(d × 0.0343 / 2)` demanded by the spec (`spec_distance_rounded`,
written from the spec's words). -/
theorem C5_distance_law (s d : Nat) (t : Datetime)
    (h0 : 0 < d) (h31 : d < 2 ^ 31) :
    medicao_report ⟨true, false, s, s + d, -1, []⟩ t
      = [Line.dist t.hour t.min t.sec (spec_distance_rounded d)] := by
  have hdur : to_int32 (((s + d : Nat) : Int) - ((s : Nat) : Int)) = (d : Int) := by
    unfold to_int32
    push_cast
    omega
  have hu : int_to_u64 ((d : Nat) : Int) = d := by
    unfold int_to_u64
    omega
  simp only [medicao_report, print_medicao, if_true, if_false]
  rw [hdur, hu]
  rfl

/-- C5 witness: the spec's own instance — an echo of 5820 µs prints 100 cm
(`round(5820 × 0.0343 / 2) = round(99.813) = 100`). -/
theorem C5_distance_law_witness :
    medicao_report ⟨true, false, 0, 0 + 5820, -1, []⟩ ⟨21, 30, 0⟩
      = [Line.dist 21 30 0 100] := by
  have h := C5_distance_law 0 5820 ⟨21, 30, 0⟩ (by decide) (by decide)
  rw [h]
  have h100 : spec_distance_rounded 5820 = 100 := by
    unfold spec_distance_rounded
    rw [round_eq]
    norm_num
  rw [h100]

end Pra3

namespace Pra3

theorem rise_alarm_inv (t id : Nat) (st : EchoState) (h : alarm_inv st) :
    alarm_inv (echo_isr_rise t id st) := by
  rcases h with ⟨h1, h2⟩
  refine ⟨fun _ => ?_, fun hlt => ?_⟩
  · show (if st.echo_timeout_alarm ≥ 0 then
        cancel_alarm st.echo_timeout_alarm.toNat st.pending_alarms
      else st.pending_alarms) ++ [id] = [((id : Int)).toNat]
    split_ifs with hg
    · rw [h1 hg, cancel_alarm_self]; simp
    · rw [h2 (by omega)]; simp
  · exfalso
    have : ((id : Nat) : Int) < 0 := hlt
    omega

theorem fall_alarm_empty (t : Nat) (st : EchoState) (h : alarm_inv st) :
    (echo_isr_fall t st).pending_alarms = [] := by
  rcases h with ⟨h1, h2⟩
  show (if st.echo_timeout_alarm ≥ 0 then
      ({ echo_recebido := true, echo_timeout := false, echo_start_time := st.echo_start_time,
         echo_end_time := t, echo_timeout_alarm := -1,
         pending_alarms := cancel_alarm st.echo_timeout_alarm.toNat st.pending_alarms } : EchoState)
    else { echo_recebido := true, echo_timeout := false, echo_start_time := st.echo_start_time,
           echo_end_time := t, echo_timeout_alarm := st.echo_timeout_alarm,
           pending_alarms := st.pending_alarms }).pending_alarms = []
  split_ifs with hg
  · show cancel_alarm st.echo_timeout_alarm.toNat st.pending_alarms = []
    rw [h1 hg, cancel_alarm_self]
  · show st.pending_alarms = []
    exact h2 (by omega)

theorem fall_alarm_inv (t : Nat) (st : EchoState) (h : alarm_inv st) :
    alarm_inv (echo_isr_fall t st) := by
  have hpend := fall_alarm_empty t st h
  have hneg : (echo_isr_fall t st).echo_timeout_alarm < 0 := by
    show (if st.echo_timeout_alarm ≥ 0 then
        ({ echo_recebido := true, echo_timeout := false, echo_start_time := st.echo_start_time,
           echo_end_time := t, echo_timeout_alarm := -1,
           pending_alarms := cancel_alarm st.echo_timeout_alarm.toNat st.pending_alarms } : EchoState)
      else { echo_recebido := true, echo_timeout := false, echo_start_time := st.echo_start_time,
             echo_end_time := t, echo_timeout_alarm := st.echo_timeout_alarm,
             pending_alarms := st.pending_alarms }).echo_timeout_alarm < 0
    split_ifs with hg
    · exact (by decide : (-1 : Int) < 0)
    · show st.echo_timeout_alarm < 0
      omega
  exact ⟨fun hge => absurd hge (by omega), fun _ => hpend⟩

theorem callback_alarm_inv (f : Nat) (st : EchoState) (h : alarm_inv st)
    (hf : st.pending_alarms.contains f = true) :
    alarm_inv (echo_timeout_callback f st) := by
  rcases h with ⟨h1, h2⟩
  refine ⟨fun hge => absurd hge ?_, fun _ => ?_⟩
  · exact (by decide : ¬((-1 : Int) ≥ 0))
  · show cancel_alarm f st.pending_alarms = []
    rcases lt_or_ge st.echo_timeout_alarm 0 with hl | hg
    · rw [h2 hl] at hf
      simp [List.contains] at hf
    · rw [h1 hg] at hf ⊢
      have : f = st.echo_timeout_alarm.toNat := by
        simpa [List.contains] using hf
      rw [this, cancel_alarm_self]


/-- C2 (amended): at most one timeout alarm is ever outstanding — every
admissible event preserves the alarm-handle invariant, which bounds the
armed-alarm pool by one — and the outstanding alarm is cancelled whenever a
falling edge is observed (the pool is empty afterwards), while a rising edge
cancels the previously armed alarm before arming a fresh one;
`disparar_medicao` however does not cancel an armed alarm: it only clears
the two result flags before triggering. -/
theorem C2_amended_thm (st : EchoState) (e : EchoEvent)
    (hinv : alarm_inv st) (hval : e.valid st = true) :
    alarm_inv (echo_step e st) ∧
    (echo_step e st).pending_alarms.length ≤ 1 ∧
    (∀ t, (echo_isr_fall t st).pending_alarms = []) ∧
    disparar_medicao st = { st with echo_recebido := false, echo_timeout := false } := by
  have hstep : alarm_inv (echo_step e st) := by
    cases e with
    | rise t id => exact rise_alarm_inv t id st hinv
    | fall t => exact fall_alarm_inv t st hinv
    | timeout_fire f =>
        refine callback_alarm_inv f st hinv ?_
        simpa [EchoEvent.valid] using hval
    | disparar => exact hinv
  exact ⟨hstep, alarm_inv_length _ hstep, fun t => fall_alarm_empty t st hinv, rfl⟩

/-- C2 amended witness: from the boot state, a rising edge arming alarm 5
yields a state satisfying the alarm-handle invariant with at most one armed
alarm. -/
theorem C2_amended_witness :
    alarm_inv (echo_step (EchoEvent.rise 0 5) initial_echo) ∧
    (echo_step (EchoEvent.rise 0 5) initial_echo).pending_alarms.length ≤ 1 := by
  have hinv0 : alarm_inv initial_echo := ⟨fun h => absurd h (by decide), fun _ => rfl⟩
  have h := C2_amended_thm initial_echo (EchoEvent.rise 0 5) hinv0 (by decide)
  exact ⟨h.1, h.2.1⟩

end Pra3

namespace Pra3

/-- C6 counterexample: after consuming 19 ordinary characters from the boot
state, `cmd_index` equals 19 = capacity - 1, refuting the claim that
`index < capacity - 1` holds before and after every character. -/
theorem C6_counterexample :
    (feed_chars (List.replicate 19 (Char.ofNat 97)) initial_cmd).cmd_index = CMD_BUFFER_CAP - 1 ∧
    ¬((feed_chars (List.replicate 19 (Char.ofNat 97)) initial_cmd).cmd_index
        < CMD_BUFFER_CAP - 1) := by
  decide

/-- C6 (amended): the line-buffer index satisfies `index <= capacity - 1`
(capacity 20) before and after every character, every buffered write —
including the terminating NUL placed on dispatch — targets an in-bounds
position, non-delimiter characters arriving while the buffer is full are
silently dropped, and the index is reset to 0 on dispatch. -/
theorem C6_amended_thm (st : CmdState) (c : Char)
    (hlen : st.cmd_buffer.length = CMD_BUFFER_CAP)
    (hidx : st.cmd_index ≤ CMD_BUFFER_CAP - 1) :
    (process_char c st).1.cmd_index ≤ CMD_BUFFER_CAP - 1 ∧
    (process_char c st).1.cmd_buffer.length = CMD_BUFFER_CAP ∧
    (∀ i, i ∈ (process_char c st).2.2 → i < CMD_BUFFER_CAP) ∧
    (st.cmd_index = CMD_BUFFER_CAP - 1 → ¬(c = Char.ofNat 13 ∨ c = Char.ofNat 10) →
      process_char c st = (st, none, [])) ∧
    ((process_char c st).2.1.isSome = true → (process_char c st).1.cmd_index = 0) := by
  unfold process_char
  split_ifs with h1 h2 h3 <;>
    refine ⟨?_, ?_, ?_, ?_, ?_⟩ <;>
    simp_all [CMD_BUFFER_CAP, List.length_set] <;>
    omega

/-- C7: `update_rtc_time` advances the wall clock by exactly one second with
carry propagation — for every in-range state the post-state is in range and
its total seconds equal the predecessor plus one, modulo 24 hours. -/
theorem C7_tick_one_second (t : Datetime)
    (hh : 0 ≤ t.hour ∧ t.hour < 24) (hm : 0 ≤ t.min ∧ t.min < 60)
    (hs : 0 ≤ t.sec ∧ t.sec < 60) :
    (0 ≤ (update_rtc_time t).hour ∧ (update_rtc_time t).hour < 24) ∧
    (0 ≤ (update_rtc_time t).min ∧ (update_rtc_time t).min < 60) ∧
    (0 ≤ (update_rtc_time t).sec ∧ (update_rtc_time t).sec < 60) ∧
    (update_rtc_time t).hour * 3600 + (update_rtc_time t).min * 60 + (update_rtc_time t).sec
      = (t.hour * 3600 + t.min * 60 + t.sec + 1) % 86400 := by
  obtain ⟨h, m, s⟩ := t
  simp only [update_rtc_time]
  split_ifs with h1 h2 h3 <;> simp_all <;> omega

/-- C8: whenever a supervisor iteration ends with the activation flag false
(it is only written during command intake, before the measurement branch),
that iteration printed no measurement line and did not fire the trigger,
regardless of the echo-result variables and ISR activity. -/
theorem C8_quiescence (input : Option Char) (rtc_due meas_due : Bool)
    (wait_events : List EchoEvent) (st : SysState)
    (h : (loop_iter input rtc_due meas_due wait_events st).1.sistema_ativo = false) :
    no_meas_lines (loop_iter input rtc_due meas_due wait_events st).2.1 = true ∧
    (loop_iter input rtc_due meas_due wait_events st).2.2 = false := by
  have h2 : (intake_phase input st.cmd st.sistema_ativo).2.1 = false := h
  constructor
  · show no_meas_lines ((intake_phase input st.cmd st.sistema_ativo).2.2 ++
      (medicao_phase (intake_phase input st.cmd st.sistema_ativo).2.1 meas_due wait_events
        st.echo (if rtc_due then update_rtc_time st.current_time else st.current_time)).2.1) = true
    rw [h2, medicao_phase_inactive]
    simpa using intake_no_meas input st.cmd st.sistema_ativo
  · show (medicao_phase (intake_phase input st.cmd st.sistema_ativo).2.1 meas_due wait_events
        st.echo (if rtc_due then update_rtc_time st.current_time else st.current_time)).2.2 = false
    rw [h2, medicao_phase_inactive]

/-- C8 witness: an idle iteration from the boot state prints nothing and
does not fire. -/
theorem C8_quiescence_witness :
    no_meas_lines (loop_iter none false false [] initial_sys).2.1 = true ∧
    (loop_iter none false false [] initial_sys).2.2 = false :=
  C8_quiescence none false false [] initial_sys (by rfl)

/-- C7 witness: ticking 23:59:59 wraps to 00:00:00, one second later
modulo 24 h. -/
theorem C7_tick_witness :
    (update_rtc_time ⟨23, 59, 59⟩).hour * 3600 + (update_rtc_time ⟨23, 59, 59⟩).min * 60
        + (update_rtc_time ⟨23, 59, 59⟩).sec = (23 * 3600 + 59 * 60 + 59 + 1) % 86400 :=
  (C7_tick_one_second ⟨23, 59, 59⟩ (by decide) (by decide) (by decide)).2.2.2

/-- C6 amended witness: consuming one character from the boot state keeps
the index within the bound. -/
theorem C6_amended_witness :
    (process_char (Char.ofNat 97) initial_cmd).1.cmd_index ≤ CMD_BUFFER_CAP - 1 :=
  (C6_amended_thm initial_cmd (Char.ofNat 97) (by decide) (by decide)).1

end Pra3
